import Mathlib

/-!
Verification development for the seaweedfs storage core: a shallow embedding
of the LevelDB-backed needle index (`weed/storage/needle_map_leveldb.go`),
the cluster topology (`weed/topology/topology.go`), the erasure-coding shard
naming (`weed/storage/erasure_coding/ec_shard.go`) and the LevelDB filer
store, together with theorems about their behaviour.

Machine integers are modelled as `Nat` (sizes here are `uint32`, needle ids
`uint64`; no arithmetic in the embedded operations can overflow those
widths, so no wrap-around modelling is needed).  The LevelDB key-value
engine at the accelerated-lookup boundary is modelled as a total map
`Nat → Option (Nat × Nat)`, matching the spec's "opaque key→value byte
store" boundary: the fixed-width byte encoding and decoding of needle id,
offset and size round-trip and are elided.
-/

set_option autoImplicit false

namespace Seaweed

/-- `TombstoneFileSize` from `weed/storage/types`: the `uint32` sentinel
`math.MaxUint32` marking a tombstone (logical delete) record. -/
def TombstoneFileSize : Nat := 4294967295

/-- One record of the append-only `.idx` index log: `(NeedleId, Offset, Size)`. -/
structure IdxRecord where
  key : Nat
  offset : Nat
  size : Nat
deriving DecidableEq, Repr

/-- Modelled from the spec: the aggregate accounting metrics of
`baseNeedleMapper.mapMetric` ("file count, deleted-file count, deleted-byte
total" plus the written-byte total and maximum key, updated from the size
delta between old and new entries).  The metric code itself lives in
`weed/storage/needle_map.go`, outside the given sources. -/
structure MapMetric where
  deletionCounter : Nat
  fileCounter : Nat
  deletionByteCounter : Nat
  fileByteCounter : Nat
  maximumFileKey : Nat
deriving DecidableEq, Repr

/-- Modelled from the spec: `mapMetric.logDelete` records one more deleted
file of `deletedByteCount` bytes. -/
def MapMetric.logDelete (mm : MapMetric) (deletedByteCount : Nat) : MapMetric :=
  { mm with
    deletionByteCounter := mm.deletionByteCounter + deletedByteCount
    deletionCounter := mm.deletionCounter + 1 }

/-- Modelled from the spec: `mapMetric.logPut` counts the new file and, when
the key previously held a live entry (`oldSize > 0` and not the tombstone
sentinel), also counts the overwritten entry as deleted, so that accounting
follows the size delta between old and new entries. -/
def MapMetric.logPut (mm : MapMetric) (key oldSize newSize : Nat) : MapMetric :=
  let mm1 := { mm with
    maximumFileKey := max mm.maximumFileKey key
    fileCounter := mm.fileCounter + 1
    fileByteCounter := mm.fileByteCounter + newSize }
  if 0 < oldSize ∧ oldSize ≠ TombstoneFileSize then
    { mm1 with
      deletionCounter := mm1.deletionCounter + 1
      deletionByteCounter := mm1.deletionByteCounter + oldSize }
  else mm1

/-- The net number of live bytes accounted for: written bytes minus bytes of
entries logged as deleted (including overwritten ones). -/
def MapMetric.netBytes (mm : MapMetric) : Int :=
  (mm.fileByteCounter : Int) - (mm.deletionByteCounter : Int)

/-- State of a `LevelDbNeedleMap`: the append-only index log (source of
truth), the LevelDB accelerated lookup store modelled at the key-value
boundary, and the accounting metrics of the embedded `baseNeedleMapper`. -/
structure LevelDbNeedleMap where
  log : List IdxRecord
  db : Nat → Option (Nat × Nat)
  mapMetric : MapMetric

/-- `levelDbWrite`: store `(offset, size)` under `key` in the lookup store. -/
def levelDbWrite (db : Nat → Option (Nat × Nat)) (key offset size : Nat) :
    Nat → Option (Nat × Nat) :=
  fun k => if k = key then some (offset, size) else db k

/-- `levelDbDelete`: remove `key` from the lookup store. -/
def levelDbDelete (db : Nat → Option (Nat × Nat)) (key : Nat) :
    Nat → Option (Nat × Nat) :=
  fun k => if k = key then none else db k

/-- `LevelDbNeedleMap.Get`: point lookup in the accelerated store; returns
the stored `(offset, size)` or not-found.  No side effects. -/
def LevelDbNeedleMap.Get (m : LevelDbNeedleMap) (key : Nat) : Option (Nat × Nat) :=
  m.db key

/-- Modelled from the spec: `baseNeedleMapper.appendToIndexFile` appends one
fixed-width record to the index log; the file write may fail (disk full,
I/O error), which the embedding exposes as the `appendOk` flag threaded
through `Put` and `Delete`. -/
def appendToIndexFile (log : List IdxRecord) (key offset size : Nat) : List IdxRecord :=
  log ++ [⟨key, offset, size⟩]

/-- The prior size `Put` reads for accounting: the stored entry's size, or
`0` when the key is absent (the Go `var oldSize uint32` zero value). -/
def LevelDbNeedleMap.oldSize (m : LevelDbNeedleMap) (key : Nat) : Nat :=
  match m.Get key with
  | some (_, os) => os
  | none => 0

/-- `LevelDbNeedleMap.Put`: look up the old entry for accounting, update the
metrics (`logPut`), append `(key, offset, size)` to the index log first, and
only then write the lookup store.  `appendOk` models whether the index-file
append succeeds; on failure the error is returned with no lookup-store
update.  Result: `(error?, new state)`. -/
def LevelDbNeedleMap.Put (m : LevelDbNeedleMap) (key offset size : Nat)
    (appendOk : Bool) : Option String × LevelDbNeedleMap :=
  let mm := m.mapMetric.logPut key (m.oldSize key) size
  if appendOk then
    (none,
      { log := appendToIndexFile m.log key offset size
        db := levelDbWrite m.db key offset size
        mapMetric := mm })
  else
    (some "cannot write to indexfile", { m with mapMetric := mm })

/-- `LevelDbNeedleMap.Delete`: log the deletion metrics for a present key,
append a tombstone record (`size = TombstoneFileSize`) to the index log
first, then remove the key from the lookup store.  `appendOk` as in `Put`. -/
def LevelDbNeedleMap.Delete (m : LevelDbNeedleMap) (key offset : Nat)
    (appendOk : Bool) : Option String × LevelDbNeedleMap :=
  let mm := if (m.Get key).isSome then m.mapMetric.logDelete (m.oldSize key)
            else m.mapMetric
  if appendOk then
    (none,
      { log := appendToIndexFile m.log key offset TombstoneFileSize
        db := levelDbDelete m.db key
        mapMetric := mm })
  else
    (some "cannot write to indexfile", { m with mapMetric := mm })

/-- The per-record action of `generateLevelDbFile`'s `WalkIndexFile`
callback: a record with non-zero offset and non-tombstone size is upserted,
any other record deletes its key. -/
def replayRecord (db : Nat → Option (Nat × Nat)) (r : IdxRecord) :
    Nat → Option (Nat × Nat) :=
  if r.offset ≠ 0 ∧ r.size ≠ TombstoneFileSize then
    levelDbWrite db r.key r.offset r.size
  else
    levelDbDelete db r.key

/-- `generateLevelDbFile`: open the LevelDB at `dbFileName` — its current,
possibly stale contents `db0`; the store is never cleared first — and
replay the index log onto it in order.  `WalkIndexFile` reads the log
sequentially and can fail with an I/O error partway (its error is what
`generateLevelDbFile` returns): `readable` models how many records the
walk manages to read, with any value at least the log's length meaning the
walk completes.  Result: the store after the replayed prefix, and the
walk's error, if any. -/
def generateLevelDbFile (db0 : Nat → Option (Nat × Nat)) (log : List IdxRecord)
    (readable : Nat) : (Nat → Option (Nat × Nat)) × Option String :=
  ((log.take readable).foldl replayRecord db0,
    if log.length ≤ readable then none else some "cannot read index file")

/-- `isLevelDbFresh`: the persisted store is trusted only when its `LOG`
file can be opened, both it and the index file can be stat-ed, and the
store's modification time is strictly after the index log's.
`dbLogOpenOk` models whether `os.Open` of the store's `LOG` file succeeds;
`dbModTime`/`indexModTime` are the stat results (`none` = stat error). -/
def isLevelDbFresh (dbLogOpenOk : Bool) (dbModTime indexModTime : Option Nat) : Bool :=
  if dbLogOpenOk then
    match dbModTime, indexModTime with
    | some d, some i => decide (i < d)
    | _, _ => false
  else false

/-- Modelled from the spec: `newNeedleMapMetricFromIndexFile` recomputes the
aggregate metrics by walking the index log, applying the same per-record
accounting as live operations against the store being rebuilt. -/
def metricFromIndexLog (log : List IdxRecord) : MapMetric :=
  (log.foldl
    (fun p r =>
      let oldSize := match p.2 r.key with
        | some (_, os) => os
        | none => 0
      if r.offset ≠ 0 ∧ r.size ≠ TombstoneFileSize then
        (p.1.logPut r.key oldSize r.size, replayRecord p.2 r)
      else
        (p.1.logDelete oldSize, replayRecord p.2 r))
    (⟨0, 0, 0, 0, 0⟩, fun _ => none)).1

/-- `NewLevelDbNeedleMap`: open a needle map over an index log and a
persisted lookup store.  When the freshness gate fails the index log is
replayed onto the persisted store's existing contents, and the replay's
error — a walk failing after `readable` records — is discarded (the Go
call ignores `generateLevelDbFile`'s return value), so `Get` is served
from whatever the replay produced; when the gate holds the persisted store
is used as-is. -/
def NewLevelDbNeedleMap (persistedDb : Nat → Option (Nat × Nat))
    (log : List IdxRecord) (dbLogOpenOk : Bool)
    (dbModTime indexModTime : Option Nat) (readable : Nat) : LevelDbNeedleMap :=
  { log := log
    db := if isLevelDbFresh dbLogOpenOk dbModTime indexModTime then persistedDb
          else (generateLevelDbFile persistedDb log readable).1
    mapMetric := metricFromIndexLog log }

/-! ### Topology (`weed/topology/topology.go`) -/

abbrev VolumeId := Nat
abbrev NodeId := String

/-- `storage.VolumeInfo`, reduced to the identity fields the topology code
reads: `(VolumeId, Collection, ReplicaPlacement, TTL)`.  Replica placement
and TTL are opaque keys here, modelled as `Nat`. -/
structure VolumeInfo where
  id : VolumeId
  collection : String
  replicaPlacement : Nat
  ttl : Nat
deriving DecidableEq, Repr

/-- Modelled from the spec: a `VolumeLayout` tracks, per `VolumeId`, which
Data Nodes currently hold a copy (`vid2location`); its code lives in
`weed/topology/volume_layout.go`, outside the given sources. -/
structure VolumeLayout where
  vid2location : List (VolumeId × List NodeId)
deriving DecidableEq, Repr

/-- Modelled from the spec: `VolumeLayout.Lookup` returns the Data Nodes
holding the volume, or `none` (Go `nil`) when the layout does not track it. -/
def VolumeLayout.Lookup (vl : VolumeLayout) (vid : VolumeId) : Option (List NodeId) :=
  (vl.vid2location.find? (fun p => p.1 == vid)).map (·.2)

/-- Modelled from the spec: `RegisterVolume` adds a `(VolumeInfo, DataNode)`
pairing — the node is added to the volume's replica location list (once). -/
def VolumeLayout.RegisterVolume (vl : VolumeLayout) (v : VolumeInfo) (dn : NodeId) :
    VolumeLayout :=
  if vl.vid2location.any (fun p => p.1 == v.id) then
    ⟨vl.vid2location.map (fun p =>
      if p.1 == v.id then
        (p.1, if p.2.contains dn then p.2 else p.2 ++ [dn])
      else p)⟩
  else
    ⟨vl.vid2location ++ [(v.id, [dn])]⟩

/-- Modelled from the spec: `UnRegisterVolume` removes a `(VolumeInfo,
DataNode)` pairing; a volume left with no location is dropped. -/
def VolumeLayout.UnRegisterVolume (vl : VolumeLayout) (v : VolumeInfo) (dn : NodeId) :
    VolumeLayout :=
  ⟨(vl.vid2location.map (fun p =>
      if p.1 == v.id then (p.1, p.2.filter (fun n => !(n == dn))) else p)).filter
    (fun p => !p.2.isEmpty)⟩

/-- `VolumeLayout.isEmpty` (modelled from the spec): true once the layout
registers no volume — the trigger for collection garbage collection. -/
def VolumeLayout.isEmpty (vl : VolumeLayout) : Bool :=
  vl.vid2location.isEmpty

/-- A `Collection`: named container of `VolumeLayout`s keyed by
`(ReplicaPlacement, TTL)`.  Its code lives in `weed/topology/collection.go`,
outside the given sources; modelled from the spec. -/
structure Collection where
  name : String
  layouts : List ((Nat × Nat) × VolumeLayout)
deriving DecidableEq, Repr

/-- Modelled from the spec: `Collection.GetOrCreateVolumeLayout` returns the
layout stored under `(rp, ttl)`, or a fresh empty one. -/
def Collection.GetOrCreateVolumeLayout (c : Collection) (rp ttl : Nat) : VolumeLayout :=
  match c.layouts.find? (fun p => p.1 == (rp, ttl)) with
  | some p => p.2
  | none => ⟨[]⟩

/-- Store an updated layout back under its `(rp, ttl)` key (the functional
counterpart of Go's in-place mutation through the layout pointer). -/
def Collection.setVolumeLayout (c : Collection) (rp ttl : Nat) (vl : VolumeLayout) :
    Collection :=
  if c.layouts.any (fun p => p.1 == (rp, ttl)) then
    { c with layouts := c.layouts.map (fun p => if p.1 == (rp, ttl) then (p.1, vl) else p) }
  else
    { c with layouts := c.layouts ++ [((rp, ttl), vl)] }

/-- Modelled from the spec: `Collection.Lookup` scans the collection's
layouts and returns the first non-`nil` replica list for the volume. -/
def Collection.Lookup (c : Collection) (vid : VolumeId) : Option (List NodeId) :=
  c.layouts.findSome? (fun p => p.2.Lookup vid)

/-- `EcShardLocations` of the topology's erasure-coded shard map: the owning
collection and, per shard id, the list of Data Nodes holding that shard. -/
structure EcShardLocations where
  collection : String
  locations : List (List NodeId)
deriving DecidableEq, Repr

/-- The `Topology` state read by the embedded methods: the collection map
(`util.ConcurrentReadMap` keyed by collection name, modelled as an
association list) and the erasure-coded shard location map. -/
structure Topology where
  collections : List Collection
  ecShardMap : List (VolumeId × EcShardLocations)
deriving DecidableEq, Repr

/-- `collectionMap.Find`: look up a collection by name. -/
def Topology.findCollection (t : Topology) (name : String) : Option Collection :=
  t.collections.find? (fun c => c.name == name)

/-- `collectionMap.Get(name, factory)`: the existing collection, or a fresh
empty one named `name`. -/
def Topology.getCollection (t : Topology) (name : String) : Collection :=
  match t.findCollection name with
  | some c => c
  | none => ⟨name, []⟩

/-- Write a collection back into the map under its name (the functional
counterpart of Go's shared-pointer mutation after `collectionMap.Get`). -/
def Topology.setCollection (t : Topology) (c : Collection) : Topology :=
  if t.collections.any (fun c0 => c0.name == c.name) then
    { t with collections := t.collections.map (fun c0 => if c0.name == c.name then c else c0) }
  else
    { t with collections := t.collections ++ [c] }

/-- `Topology.DeleteCollection`: drop the named collection from the map. -/
def Topology.DeleteCollection (t : Topology) (name : String) : Topology :=
  { t with collections := t.collections.filter (fun c => !(c.name == name)) }

/-- `Topology.LookupEcShards`: look the volume up in the ec shard map. -/
def Topology.LookupEcShards (t : Topology) (vid : VolumeId) : Option EcShardLocations :=
  (t.ecShardMap.find? (fun p => p.1 == vid)).map (·.2)

/-- The ec-shard branch of `Topology.Lookup`: when the ec shard map has the
volume, flatten all its shard-location lists into one; otherwise empty. -/
def Topology.ecShardsFlattened (t : Topology) (vid : VolumeId) : List NodeId :=
  match t.LookupEcShards vid with
  | some locs => locs.locations.foldl (fun acc loc => acc ++ loc) []
  | none => []

/-- `Topology.Lookup`: resolve `(collection, vid)` to data nodes.  With no
collection name every collection is scanned for the first non-`nil` list;
with a name, the named collection's answer is returned directly when the
collection exists (Go `return c.Lookup(vid)`).  Only when neither path
returned does the ec shard map get consulted, flattening all shard location
lists; otherwise the result is empty. -/
def Topology.Lookup (t : Topology) (collection : String) (vid : VolumeId) :
    List NodeId :=
  match
    (if collection = "" then
      t.collections.findSome? (fun c => c.Lookup vid)
    else
      match t.findCollection collection with
      | some c => some ((c.Lookup vid).getD [])
      | none => none) with
  | some list => list
  | none => t.ecShardsFlattened vid

/-- `Topology.GetVolumeLayout`: get-or-create the collection, then
get-or-create the layout for `(rp, ttl)` inside it. -/
def Topology.GetVolumeLayout (t : Topology) (name : String) (rp ttl : Nat) :
    VolumeLayout :=
  (t.getCollection name).GetOrCreateVolumeLayout rp ttl

/-- The state update performed by Go's `t.GetVolumeLayout(...)` followed by
a mutation of the returned layout: the (possibly fresh) collection is in the
map afterwards, holding the mutated layout. -/
def Topology.putVolumeLayout (t : Topology) (name : String) (rp ttl : Nat)
    (vl : VolumeLayout) : Topology :=
  t.setCollection ((t.getCollection name).setVolumeLayout rp ttl vl)

/-- `Topology.RegisterVolumeLayout`: register the volume with its layout. -/
def Topology.RegisterVolumeLayout (t : Topology) (v : VolumeInfo) (dn : NodeId) :
    Topology :=
  t.putVolumeLayout v.collection v.replicaPlacement v.ttl
    ((t.GetVolumeLayout v.collection v.replicaPlacement v.ttl).RegisterVolume v dn)

/-- `Topology.UnRegisterVolumeLayout`: unregister the volume from its
layout and, when that layout has become empty, delete the whole collection
from the collection map. -/
def Topology.UnRegisterVolumeLayout (t : Topology) (v : VolumeInfo) (dn : NodeId) :
    Topology :=
  let vl := (t.GetVolumeLayout v.collection v.replicaPlacement v.ttl).UnRegisterVolume v dn
  let t1 := t.putVolumeLayout v.collection v.replicaPlacement v.ttl vl
  if vl.isEmpty then t1.DeleteCollection v.collection else t1

/-- `Topology.ListCollections`: the union of collection names from the
collection map (always — the Go code never reads `includeNormalVolumes`)
and, when requested, the ec shard map (order unspecified; modelled up to
membership by deduplication). -/
def Topology.ListCollections (t : Topology) (includeNormalVolumes includeEcVolumes : Bool) :
    List String :=
  (t.collections.map (·.name) ++
    (if includeEcVolumes then t.ecShardMap.map (fun p => p.2.collection) else [])).dedup

/-! ### Leadership (`IsLeader` / `Leader`) -/

/-- The states of the external raft handle relevant to `IsLeader`. -/
inductive RaftState where
  | Leader
  | Follower
  | Candidate
deriving DecidableEq, Repr

/-- The external `raft.Server` at the boundary the topology reads: its local
state, the leader it currently reports (`""` when it reports none), and its
own name.  `Option RaftServer` models the `RaftServer` field, which is `nil`
until an election mechanism is attached. -/
structure RaftServer where
  state : RaftState
  leader : String
  name : String
deriving DecidableEq, Repr

/-- `Topology.IsLeader`: true only when a raft server is attached and its
state is `Leader`; false (not an error) otherwise. -/
def Topology.IsLeader (raftServer : Option RaftServer) : Bool :=
  match raftServer with
  | some r => r.state == RaftState.Leader
  | none => false

/-- `Topology.Leader`: the reported leader and the error, if any, as the
`(string, error)` pair the Go function returns.  No raft server: `("",
"Raft Server not ready yet!")`.  Raft reports no leader: the node's own
name together with the error `"Raft Server not initialized!"`.  Otherwise
the leader with no error. -/
def Topology.Leader (raftServer : Option RaftServer) : String × Option String :=
  match raftServer with
  | none => ("", some "Raft Server not ready yet!")
  | some r =>
    if r.leader = "" then (r.name, some "Raft Server not initialized!")
    else (r.leader, none)

/-! ### Data node registration / synchronization -/

/-- A reported volume record (`master_pb.VolumeInformationMessage` or its
short form) at the conversion boundary: `wellFormed` models whether
`storage.NewVolumeInfo`/`NewVolumeInfoFromShort` — external parsing code —
succeeds on it, and `info` the converted `VolumeInfo` when it does. -/
structure RawVolume where
  wellFormed : Bool
  info : VolumeInfo
deriving DecidableEq, Repr

/-- Modelled from the spec: `storage.NewVolumeInfo` converts a reported
volume record, failing (`none`) exactly on a malformed record. -/
def NewVolumeInfo (r : RawVolume) : Option VolumeInfo :=
  if r.wellFormed then some r.info else none

/-- Modelled from the spec: `storage.NewVolumeInfoFromShort`, the same
conversion boundary for short-form incremental records. -/
def NewVolumeInfoFromShort (r : RawVolume) : Option VolumeInfo :=
  if r.wellFormed then some r.info else none

/-- A `DataNode` as the synchronization code uses it: its identity and the
set of volumes the topology currently believes it holds. -/
structure DataNode where
  id : NodeId
  volumes : List VolumeInfo
deriving DecidableEq, Repr

/-- Modelled from the spec: `DataNode.UpdateVolumes` diffs the full reported
volume list against the stored one — volumes present now but not before are
new, volumes absent now but present before are deleted — and replaces the
stored set. -/
def DataNode.UpdateVolumes (dn : DataNode) (actualVolumes : List VolumeInfo) :
    DataNode × List VolumeInfo × List VolumeInfo :=
  let newVolumes := actualVolumes.filter (fun v => !dn.volumes.any (fun w => w.id == v.id))
  let deletedVolumes := dn.volumes.filter (fun w => !actualVolumes.any (fun v => v.id == w.id))
  ({ dn with volumes := actualVolumes }, newVolumes, deletedVolumes)

/-- Modelled from the spec: `DataNode.DeltaUpdateVolumes` applies explicit
added/removed lists to the stored volume set without a full diff. -/
def DataNode.DeltaUpdateVolumes (dn : DataNode) (newVis oldVis : List VolumeInfo) :
    DataNode :=
  { dn with volumes :=
      dn.volumes.filter (fun w => !oldVis.any (fun v => v.id == w.id)) ++ newVis }

/-- `Topology.SyncDataNodeRegistration` (full sync): convert each reported
record, skipping any that fails conversion; diff against the node's stored
set; register every new volume and unregister every deleted one.  Result:
`(topology, data node, new volumes, deleted volumes)`. -/
def Topology.SyncDataNodeRegistration (t : Topology) (volumes : List RawVolume)
    (dn : DataNode) : Topology × DataNode × List VolumeInfo × List VolumeInfo :=
  let volumeInfos := volumes.filterMap NewVolumeInfo
  let res := dn.UpdateVolumes volumeInfos
  let t1 := res.2.1.foldl (fun acc v => acc.RegisterVolumeLayout v res.1.id) t
  let t2 := res.2.2.foldl (fun acc v => acc.UnRegisterVolumeLayout v res.1.id) t1
  (t2, res.1, res.2.1, res.2.2)

/-- `Topology.IncrementalSyncDataNodeRegistration`: convert each record of
the explicit added and removed lists, skipping any that fails conversion;
apply the delta to the node and register/unregister accordingly. -/
def Topology.IncrementalSyncDataNodeRegistration (t : Topology)
    (newVolumes deletedVolumes : List RawVolume) (dn : DataNode) :
    Topology × DataNode :=
  let newVis := newVolumes.filterMap NewVolumeInfoFromShort
  let oldVis := deletedVolumes.filterMap NewVolumeInfoFromShort
  let dn1 := dn.DeltaUpdateVolumes newVis oldVis
  let t1 := newVis.foldl (fun acc v => acc.RegisterVolumeLayout v dn1.id) t
  let t2 := oldVis.foldl (fun acc v => acc.UnRegisterVolumeLayout v dn1.id) t1
  (t2, dn1)

/-! ### Filer store (`LevelDB2Store`, `src/unnamed/part_000`) -/

/-- The filer's sharded key-value state: `dbCount` independent shards, each
an opaque byte-key→byte-value map (bytes modelled as `List Nat`). -/
structure LevelDB2Store where
  dbs : Nat → (List Nat → Option (List Nat))
  dbCount : Nat

/-- `hashToBytes`: digest the directory path (the `hash` argument stands
for the external md5, a deterministic 16-byte digest) and use the digest's
last byte, reduced mod `dbCount`, as the partition id. -/
def hashToBytes (hash : String → List Nat) (dir : String) (dbCount : Nat) :
    List Nat × Nat :=
  let b := hash dir
  (b, b.getLastD 0 % dbCount)

/-- `genKey`: the shard key is the directory digest with the file name's
bytes appended; the partition id comes from the digest alone. -/
def genKey (hash : String → List Nat) (dirPath fileName : String) (dbCount : Nat) :
    List Nat × Nat :=
  let p := hashToBytes hash dirPath dbCount
  (p.1 ++ fileName.toList.map Char.toNat, p.2)

/-- `LevelDB2Store.InsertEntry`: store the entry's encoded value (the
encoding itself is external `filer2` code) under `genKey` in the selected
shard. -/
def LevelDB2Store.InsertEntry (store : LevelDB2Store) (hash : String → List Nat)
    (dir name : String) (value : List Nat) : LevelDB2Store :=
  let p := genKey hash dir name store.dbCount
  { store with dbs := fun i =>
      if i = p.2 then fun k => if k = p.1 then some value else store.dbs i k
      else store.dbs i }

/-- `LevelDB2Store.FindEntry`: read the encoded value stored under `genKey`
in the selected shard, or not-found. -/
def LevelDB2Store.FindEntry (store : LevelDB2Store) (hash : String → List Nat)
    (dir name : String) : Option (List Nat) :=
  let p := genKey hash dir name store.dbCount
  store.dbs p.2 p.1

/-- `LevelDB2Store.DeleteEntry`: remove the key computed by `genKey` from
the selected shard. -/
def LevelDB2Store.DeleteEntry (store : LevelDB2Store) (hash : String → List Nat)
    (dir name : String) : LevelDB2Store :=
  let p := genKey hash dir name store.dbCount
  { store with dbs := fun i =>
      if i = p.2 then fun k => if k = p.1 then none else store.dbs i k
      else store.dbs i }

/-! ## Helper lemmas -/

theorem Put_snd_log (m : LevelDbNeedleMap) (k o s : Nat) :
    (m.Put k o s true).2.log = m.log ++ [⟨k, o, s⟩] := by
  simp [LevelDbNeedleMap.Put, appendToIndexFile]

theorem Put_snd_db (m : LevelDbNeedleMap) (k o s : Nat) :
    (m.Put k o s true).2.db = levelDbWrite m.db k o s := by
  simp [LevelDbNeedleMap.Put]

theorem Put_snd_mapMetric (m : LevelDbNeedleMap) (k o s : Nat) :
    (m.Put k o s true).2.mapMetric = m.mapMetric.logPut k (m.oldSize k) s := by
  simp [LevelDbNeedleMap.Put]

theorem Delete_snd_log (m : LevelDbNeedleMap) (k o : Nat) :
    (m.Delete k o true).2.log = m.log ++ [⟨k, o, TombstoneFileSize⟩] := by
  simp [LevelDbNeedleMap.Delete, appendToIndexFile]

theorem Delete_snd_db (m : LevelDbNeedleMap) (k o : Nat) :
    (m.Delete k o true).2.db = levelDbDelete m.db k := by
  simp [LevelDbNeedleMap.Delete]

theorem logPut_netBytes (mm : MapMetric) (k os ns : Nat) (h : os ≠ TombstoneFileSize) :
    (mm.logPut k os ns).netBytes - mm.netBytes = (ns : Int) - (os : Int) := by
  unfold MapMetric.logPut MapMetric.netBytes
  split
  case isTrue hc => simp; omega
  case isFalse hc =>
    have hos : os = 0 := by
      rcases Nat.eq_zero_or_pos os with h0 | h0
      · exact h0
      · exact absurd ⟨h0, h⟩ hc
    subst hos; simp

theorem logPut_ne (mm : MapMetric) (k os ns : Nat) : mm.logPut k os ns ≠ mm := by
  unfold MapMetric.logPut
  split <;> intro hEq <;>
    · have := congrArg MapMetric.fileCounter hEq
      simp at this

theorem logDelete_ne (mm : MapMetric) (s : Nat) : mm.logDelete s ≠ mm := by
  intro hEq
  have := congrArg MapMetric.deletionCounter hEq
  simp [MapMetric.logDelete] at this

theorem replayRecord_other (db : Nat → Option (Nat × Nat)) (r : IdxRecord) (k : Nat)
    (h : k ≠ r.key) : replayRecord db r k = db k := by
  unfold replayRecord
  split <;> simp [levelDbWrite, levelDbDelete, h]

theorem replay_append_last (db0 : Nat → Option (Nat × Nat)) (l : List IdxRecord)
    (r : IdxRecord) (k : Nat) :
    (l ++ [r]).foldl replayRecord db0 k =
      if k = r.key then
        (if r.offset ≠ 0 ∧ r.size ≠ TombstoneFileSize then some (r.offset, r.size)
         else none)
      else l.foldl replayRecord db0 k := by
  rw [List.foldl_append]
  by_cases hk : k = r.key <;> by_cases hr : r.offset ≠ 0 ∧ r.size ≠ TombstoneFileSize <;>
    simp [hk, hr, replayRecord, levelDbWrite, levelDbDelete]

theorem replay_not_mentioned (db0 : Nat → Option (Nat × Nat)) (log : List IdxRecord)
    (k : Nat) (h : ∀ r ∈ log, r.key ≠ k) :
    log.foldl replayRecord db0 k = db0 k := by
  induction log generalizing db0 with
  | nil => rfl
  | cons r rest ih =>
    rw [List.foldl_cons]
    rw [ih (replayRecord db0 r) (fun x hx => h x (List.mem_cons_of_mem _ hx))]
    exact replayRecord_other db0 r k (Ne.symm (h r (List.mem_cons_self _ _)))

/-- The index log of the tombstone-precedence scenario:
`Put(42, 100, 50)`, `Put(43, 200, 30)`, `Delete(42, 100)`. -/
def scenarioLog : List IdxRecord :=
  [⟨42, 100, 50⟩, ⟨43, 200, 30⟩, ⟨42, 100, TombstoneFileSize⟩]

/-- An empty metric record. -/
def emptyMetric : MapMetric := ⟨0, 0, 0, 0, 0⟩

/-- A fresh, empty needle map (used to instantiate theorems). -/
def emptyNeedleMap : LevelDbNeedleMap := ⟨[], fun _ => none, emptyMetric⟩

/-- A needle map holding key `1 ↦ (offset 9, size 7)` with a matching log. -/
def sampleNeedleMap : LevelDbNeedleMap :=
  ⟨[⟨1, 9, 7⟩], levelDbWrite (fun _ => none) 1 9 7, emptyMetric⟩

/-! ## Claims about the needle index -/

/-- C1: `Put(key, offset, size)` appends the entry to the index log before
the accelerated lookup store is updated, and when the log append fails,
`Put` returns an error and the lookup store is left unchanged — no cache
update happens after a failed append (nor does the log change). -/
theorem Put_log_first_failed_append_no_cache_update
    (m : LevelDbNeedleMap) (key offset size : Nat) :
    ((m.Put key offset size true).2.log = m.log ++ [⟨key, offset, size⟩] ∧
      (m.Put key offset size true).2.db = levelDbWrite m.db key offset size) ∧
    ((m.Put key offset size false).1.isSome = true ∧
      (m.Put key offset size false).2.log = m.log ∧
      (m.Put key offset size false).2.db = m.db) := by
  refine ⟨⟨Put_snd_log m key offset size, Put_snd_db m key offset size⟩, ?_, ?_, ?_⟩ <;>
    simp [LevelDbNeedleMap.Put]

/-- C2: after `Put(k, o, s)` followed by `Delete(k, o)`, `Get(k)` is
not-found, and a complete rebuild over the resulting index log — onto any
initial store contents — is also not-found for `k`; concretely, rebuilding
over the log `Put(42, 100, 50), Put(43, 200, 30), Delete(42, 100)` yields
`Get(42)` not-found and `Get(43) = (200, 30)`, again for any initial
store. -/
theorem tombstone_precedence (m : LevelDbNeedleMap) (k o s : Nat)
    (db0 : Nat → Option (Nat × Nat)) :
    (((m.Put k o s true).2.Delete k o true).2.Get k = none ∧
      (generateLevelDbFile db0 ((m.Put k o s true).2.Delete k o true).2.log
          ((m.Put k o s true).2.Delete k o true).2.log.length).1 k = none) ∧
    ((generateLevelDbFile db0 scenarioLog scenarioLog.length).1 42 = none ∧
      (generateLevelDbFile db0 scenarioLog scenarioLog.length).1 43 = some (200, 30)) := by
  have htake : ∀ (l : List IdxRecord),
      (generateLevelDbFile db0 l l.length).1 = l.foldl replayRecord db0 := by
    intro l
    simp [generateLevelDbFile]
  refine ⟨⟨?_, ?_⟩, ?_, ?_⟩
  · rw [LevelDbNeedleMap.Get, Delete_snd_db]
    simp [levelDbDelete]
  · rw [htake, Delete_snd_log, Put_snd_log, replay_append_last]
    simp [TombstoneFileSize]
  · rw [htake]
    simp +decide [scenarioLog, replayRecord, levelDbWrite, levelDbDelete, TombstoneFileSize]
  · rw [htake]
    simp +decide [scenarioLog, replayRecord, levelDbWrite, levelDbDelete, TombstoneFileSize]

/-- C6: `Put(k, o1, s1)` then `Put(k, o2, s2)` changes the net
size-accounting (written bytes minus deleted bytes) by the delta `s2 - s1`,
not by `s2` alone: the metrics follow the sequence of logical operations,
including overwrites of existing keys. -/
theorem overwrite_accounting (m : LevelDbNeedleMap) (k o1 s1 o2 s2 : Nat)
    (h : s1 ≠ TombstoneFileSize) :
    ((m.Put k o1 s1 true).2.Put k o2 s2 true).2.mapMetric.netBytes
      - (m.Put k o1 s1 true).2.mapMetric.netBytes = (s2 : Int) - (s1 : Int) := by
  have hold : (m.Put k o1 s1 true).2.oldSize k = s1 := by
    rw [LevelDbNeedleMap.oldSize, LevelDbNeedleMap.Get, Put_snd_db]
    simp [levelDbWrite]
  rw [Put_snd_mapMetric, hold, logPut_netBytes _ _ _ _ h]

/-- C6 witness: the overwrite `Put(1, 9, 7); Put(1, 11, 4)` on the empty
needle map moves the net accounting by `4 - 7 = -3`. -/
theorem overwrite_accounting_witness :
    ((emptyNeedleMap.Put 1 9 7 true).2.Put 1 11 4 true).2.mapMetric.netBytes
      - (emptyNeedleMap.Put 1 9 7 true).2.mapMetric.netBytes = (4 : Int) - (7 : Int) :=
  overwrite_accounting emptyNeedleMap 1 9 7 11 4 (by decide)

/-- C10: both `Put` and `Delete` update the accounting metrics before
attempting the index-log append, so a failed append returns an error with
log and lookup store unchanged but the metrics already updated (`Put`
always changes them; `Delete` changes them whenever the key was present). -/
theorem metrics_changed_before_failed_append
    (m : LevelDbNeedleMap) (k o s : Nat) :
    ((m.Put k o s false).1.isSome = true ∧
      (m.Put k o s false).2.log = m.log ∧
      (m.Put k o s false).2.db = m.db ∧
      (m.Put k o s false).2.mapMetric = m.mapMetric.logPut k (m.oldSize k) s ∧
      (m.Put k o s false).2.mapMetric ≠ m.mapMetric) ∧
    ((m.Delete k o false).1.isSome = true ∧
      (m.Delete k o false).2.log = m.log ∧
      (m.Delete k o false).2.db = m.db ∧
      ((m.Get k).isSome = true →
        (m.Delete k o false).2.mapMetric = m.mapMetric.logDelete (m.oldSize k) ∧
        (m.Delete k o false).2.mapMetric ≠ m.mapMetric)) := by
  constructor
  · refine ⟨?_, ?_, ?_, ?_, ?_⟩
    · simp [LevelDbNeedleMap.Put]
    · simp [LevelDbNeedleMap.Put]
    · simp [LevelDbNeedleMap.Put]
    · simp [LevelDbNeedleMap.Put]
    · simp only [LevelDbNeedleMap.Put, Bool.false_eq_true, if_false]
      exact logPut_ne m.mapMetric k (m.oldSize k) s
  · refine ⟨?_, ?_, ?_, ?_⟩
    · simp [LevelDbNeedleMap.Delete]
    · simp [LevelDbNeedleMap.Delete]
    · simp [LevelDbNeedleMap.Delete]
    · intro hk
      refine ⟨?_, ?_⟩
      · simp [LevelDbNeedleMap.Delete, hk]
      · simp only [LevelDbNeedleMap.Delete, Bool.false_eq_true, if_false, hk, if_true]
        exact logDelete_ne m.mapMetric (m.oldSize k)

/-- C10 witness: deleting the present key `1` of `sampleNeedleMap` with a
failing append leaves log and store unchanged but the metrics updated. -/
theorem metrics_changed_before_failed_append_witness :
    (sampleNeedleMap.Delete 1 5 false).2.mapMetric
        = sampleNeedleMap.mapMetric.logDelete (sampleNeedleMap.oldSize 1) ∧
      (sampleNeedleMap.Delete 1 5 false).2.mapMetric ≠ sampleNeedleMap.mapMetric :=
  (metrics_changed_before_failed_append sampleNeedleMap 1 5 0).2.2.2.2 (by decide)

/-- A stale lookup store holding key `7 ↦ (3, 4)` — a key that no record
of `scenarioLog` mentions. -/
def staleDb : Nat → Option (Nat × Nat) := fun k => if k = 7 then some (3, 4) else none

/-- C3 counterexample: the freshness gate fails and the map is opened over
the stale store `staleDb` and the log `scenarioLog`, whose records never
mention key 7 — yet the served store still answers the stale `(3, 4)` for
key 7 (a regeneration determined by the log alone would answer not-found,
as the third conjunct shows), because `generateLevelDbFile` replays the log
onto the existing LevelDB contents without clearing them.  Moreover, when
the walk fails after two records its error is discarded and even the log's
own key 42 is served at its stale pre-tombstone value.  The store is
therefore not "fully regenerated" as the claim states. -/
theorem stale_rebuild_counterexample :
    scenarioLog.all (fun r => !(r.key == 7)) = true ∧
    (NewLevelDbNeedleMap staleDb scenarioLog false none none 3).db 7 = some (3, 4) ∧
    scenarioLog.foldl replayRecord (fun _ => none) 7 = none ∧
    (NewLevelDbNeedleMap (fun _ => none) scenarioLog false none none 2).db 42
      = some (100, 50) ∧
    (generateLevelDbFile (fun _ => none) scenarioLog 2).2.isSome = true := by
  decide

/-- C3 amended: the persisted lookup store is trusted exactly when its
`LOG` file opens, both files stat, and its modification time is strictly
after the index log's; whenever that gate fails, opening the needle map
serves `Get` from the log replayed in order **onto the store's existing
contents** — a record that is a tombstone or has zero offset deletes its
key, any other record upserts it (last record wins) — so keys the log
mentions reflect their last record, keys absent from the log keep their
stale values, and a walk failing partway yields an error that the open
discards, serving the prefix-replayed store. -/
theorem freshness_gate_and_rebuild (persistedDb db0 : Nat → Option (Nat × Nat))
    (log : List IdxRecord) (ok : Bool) (dbT iT : Option Nat) (readable : Nat) :
    (isLevelDbFresh ok dbT iT = true ↔
      ok = true ∧ ∃ d i, dbT = some d ∧ iT = some i ∧ i < d) ∧
    (isLevelDbFresh ok dbT iT = false →
      (NewLevelDbNeedleMap persistedDb log ok dbT iT readable).db
        = (generateLevelDbFile persistedDb log readable).1) ∧
    (log.length ≤ readable →
      (generateLevelDbFile db0 log readable).1 = log.foldl replayRecord db0 ∧
      (generateLevelDbFile db0 log readable).2 = none) ∧
    (readable < log.length →
      (generateLevelDbFile db0 log readable).1 = (log.take readable).foldl replayRecord db0 ∧
      (generateLevelDbFile db0 log readable).2.isSome = true) ∧
    (∀ (l : List IdxRecord) (r : IdxRecord) (k : Nat),
      (l ++ [r]).foldl replayRecord db0 k =
        if k = r.key then
          (if r.offset ≠ 0 ∧ r.size ≠ TombstoneFileSize then some (r.offset, r.size)
           else none)
        else l.foldl replayRecord db0 k) ∧
    (∀ k, (∀ r ∈ log, r.key ≠ k) → log.foldl replayRecord db0 k = db0 k) := by
  refine ⟨?_, ?_, ?_, ?_, ?_, ?_⟩
  · cases ok <;> rcases dbT with _ | d <;> rcases iT with _ | i <;>
      simp [isLevelDbFresh]
  · intro h
    simp [NewLevelDbNeedleMap, h]
  · intro h
    refine ⟨?_, ?_⟩
    · simp [generateLevelDbFile, List.take_of_length_le h]
    · simp [generateLevelDbFile, h]
  · intro h
    refine ⟨rfl, ?_⟩
    simp only [generateLevelDbFile]
    rw [if_neg (by omega)]
    rfl
  · exact fun l r k => replay_append_last db0 l r k
  · exact fun k h => replay_not_mentioned db0 log k h

/-- C3 witness: with the store's `LOG` unopenable the gate fails and the
served store is the log replayed onto the stale store's contents. -/
theorem freshness_gate_and_rebuild_witness :
    (NewLevelDbNeedleMap staleDb scenarioLog false none none 3).db
      = (generateLevelDbFile staleDb scenarioLog 3).1 :=
  (freshness_gate_and_rebuild staleDb staleDb scenarioLog false none none 3).2.1 rfl

/-! ## Claims about leadership, synchronization and the filer store -/

/-- C7: `IsLeader` is false — not an error — with no raft server attached
and true exactly when the attached raft server's state is `Leader`;
`Leader` fails with the "not ready" error when no raft server is attached,
returns this node's own name together with the "not initialized" error when
the group reports no leader, and otherwise returns the leader without
error. -/
theorem leadership_queries (r : RaftServer) :
    Topology.IsLeader none = false ∧
    (Topology.IsLeader (some r) = true ↔ r.state = RaftState.Leader) ∧
    Topology.Leader none = ("", some "Raft Server not ready yet!") ∧
    (r.leader = "" →
      Topology.Leader (some r) = (r.name, some "Raft Server not initialized!")) ∧
    (r.leader ≠ "" → Topology.Leader (some r) = (r.leader, none)) := by
  refine ⟨rfl, ?_, rfl, ?_, ?_⟩
  · simp [Topology.IsLeader]
  · intro h; simp [Topology.Leader, h]
  · intro h; simp [Topology.Leader, h]

/-- C7 witness: a single-member group reporting no leader yields the node's
own identity together with the "not initialized" error. -/
theorem leadership_queries_witness :
    Topology.Leader (some ⟨RaftState.Follower, "", "self"⟩)
      = ("self", some "Raft Server not initialized!") :=
  (leadership_queries ⟨RaftState.Follower, "", "self"⟩).2.2.2.1 rfl

/-- Skipping one record on which the conversion fails does not change a
`filterMap` over the batch. -/
theorem filterMap_skip {α β : Type} (f : α → Option β) (l1 l2 : List α) (bad : α)
    (h : f bad = none) :
    (l1 ++ bad :: l2).filterMap f = (l1 ++ l2).filterMap f := by
  simp [List.filterMap_append, List.filterMap_cons, h]

/-- C8: in both the full-sync and the incremental-sync paths a volume
record that fails conversion is skipped and the rest of the batch is still
processed: inserting a malformed record anywhere in any batch leaves the
entire outcome — applied registrations, unregistrations, and the node's
volume set — exactly what the well-formed records alone produce. -/
theorem sync_skips_malformed (t : Topology) (dn : DataNode)
    (l1 l2 other : List RawVolume) (bad : RawVolume)
    (hb : bad.wellFormed = false) :
    t.SyncDataNodeRegistration (l1 ++ bad :: l2) dn
        = t.SyncDataNodeRegistration (l1 ++ l2) dn ∧
    t.IncrementalSyncDataNodeRegistration (l1 ++ bad :: l2) other dn
        = t.IncrementalSyncDataNodeRegistration (l1 ++ l2) other dn ∧
    t.IncrementalSyncDataNodeRegistration other (l1 ++ bad :: l2) dn
        = t.IncrementalSyncDataNodeRegistration other (l1 ++ l2) dn := by
  have h1 : NewVolumeInfo bad = none := by simp [NewVolumeInfo, hb]
  have h2 : NewVolumeInfoFromShort bad = none := by simp [NewVolumeInfoFromShort, hb]
  refine ⟨?_, ?_, ?_⟩
  · unfold Topology.SyncDataNodeRegistration
    rw [filterMap_skip _ _ _ _ h1]
  · unfold Topology.IncrementalSyncDataNodeRegistration
    rw [filterMap_skip _ _ _ _ h2]
  · unfold Topology.IncrementalSyncDataNodeRegistration
    rw [filterMap_skip _ _ _ _ h2]

/-- C8 witness: a batch holding only one malformed record has the same
effect as the empty batch. -/
theorem sync_skips_malformed_witness :
    Topology.SyncDataNodeRegistration ⟨[], []⟩
        ([] ++ RawVolume.mk false ⟨1, "c", 0, 0⟩ :: []) ⟨"n", []⟩
      = Topology.SyncDataNodeRegistration ⟨[], []⟩ ([] ++ []) ⟨"n", []⟩ :=
  (sync_skips_malformed ⟨[], []⟩ ⟨"n", []⟩ [] [] [] (RawVolume.mk false ⟨1, "c", 0, 0⟩) rfl).1

/-- C9: the filer key generation is deterministic, yields a partition id
below `dbCount`, derives the partition from the directory digest alone (the
file name does not affect it), and `InsertEntry`/`FindEntry`/`DeleteEntry`
for one `(directory, file)` pair address the same shard and key:
`FindEntry` after `InsertEntry` reads back the inserted encoding, and after
a further `DeleteEntry` the entry is gone. -/
theorem filer_key_partitioning (hash : String → List Nat) (store : LevelDB2Store)
    (dir name other : String) (value : List Nat) (hpos : 0 < store.dbCount) :
    (genKey hash dir name store.dbCount).2 < store.dbCount ∧
    (genKey hash dir name store.dbCount).2 = (genKey hash dir other store.dbCount).2 ∧
    (store.InsertEntry hash dir name value).FindEntry hash dir name = some value ∧
    ((store.InsertEntry hash dir name value).DeleteEntry hash dir name).FindEntry
        hash dir name = none := by
  refine ⟨Nat.mod_lt _ hpos, rfl, ?_, ?_⟩
  · simp [LevelDB2Store.FindEntry, LevelDB2Store.InsertEntry]
  · simp [LevelDB2Store.FindEntry, LevelDB2Store.InsertEntry, LevelDB2Store.DeleteEntry]

/-- C9 witness: on an 8-shard empty store, inserting then reading
`("/d", "f")` returns the inserted encoding. -/
theorem filer_key_partitioning_witness :
    (LevelDB2Store.InsertEntry ⟨fun _ _ => none, 8⟩ (fun _ => List.replicate 16 0)
        "/d" "f" [1, 2]).FindEntry (fun _ => List.replicate 16 0) "/d" "f"
      = some [1, 2] :=
  (filer_key_partitioning (fun _ => List.replicate 16 0) ⟨fun _ _ => none, 8⟩
    "/d" "f" "g" [1, 2] (by decide)).2.2.1

/-! ## Collection garbage collection (C4) and lookup resolution (C5) -/

theorem setVolumeLayout_name (c : Collection) (rp ttl : Nat) (vl : VolumeLayout) :
    (c.setVolumeLayout rp ttl vl).name = c.name := by
  unfold Collection.setVolumeLayout
  split <;> rfl

theorem getCollection_name (t : Topology) (n : String) : (t.getCollection n).name = n := by
  unfold Topology.getCollection Topology.findCollection
  cases hf : t.collections.find? (fun c => c.name == n) with
  | none => rfl
  | some c => simpa using List.find?_some hf

theorem setCollection_mem_names (t : Topology) (c : Collection) :
    c.name ∈ (t.setCollection c).collections.map (·.name) := by
  unfold Topology.setCollection
  by_cases h : t.collections.any (fun c0 => c0.name == c.name) = true
  · rw [if_pos h]
    rw [List.any_eq_true] at h
    obtain ⟨c0, hc0, hname⟩ := h
    refine List.mem_map.2 ⟨c, List.mem_map.2 ⟨c0, hc0, ?_⟩, rfl⟩
    simp [hname]
  · rw [if_neg h]
    simp

theorem not_mem_names_after_delete (l : List Collection) (n : String) :
    n ∉ (l.filter (fun c => !(c.name == n))).map (·.name) := by
  intro h
  rw [List.mem_map] at h
  obtain ⟨c, hc, hn⟩ := h
  rw [List.mem_filter] at hc
  simp [hn] at hc

/-- The first volume of the C4 counterexample: volume 1 of collection `"c"`
under layout key `(0, 0)`. -/
def vA : VolumeInfo := ⟨1, "c", 0, 0⟩

/-- The second volume of the C4 counterexample: volume 2 of the same
collection `"c"` under the distinct layout key `(1, 0)`. -/
def vB : VolumeInfo := ⟨2, "c", 1, 0⟩

/-- A topology whose single collection `"c"` holds two layouts: volume 1 on
node A under `(0, 0)` and volume 2 on node B under `(1, 0)`. -/
def twoLayoutTopology : Topology :=
  (Topology.RegisterVolumeLayout ⟨[], []⟩ vA "A").RegisterVolumeLayout vB "B"

/-- C4 counterexample: in `twoLayoutTopology` the collection `"c"` still
holds the non-empty layout `(1, 0)` (volume 2 on node B), yet unregistering
volume 1 — which only empties the other layout `(0, 0)` — removes `"c"`
from `ListCollections`.  This refutes the claim that a collection is
removed only when its **last** layout becomes empty: the code deletes the
collection whenever the single layout it touched becomes empty. -/
theorem collection_gc_counterexample :
    ((twoLayoutTopology.getCollection "c").GetOrCreateVolumeLayout 1 0).isEmpty = false ∧
    "c" ∉ (twoLayoutTopology.UnRegisterVolumeLayout vA "A").ListCollections true false := by
  decide

/-- C4 amended: `UnRegisterVolumeLayout` removes the collection from
`ListCollections` exactly when the one volume layout matching the
unregistered volume's `(replica placement, TTL)` becomes empty — other
layouts of the collection, empty or not, play no part. -/
theorem collection_gc_amended (t : Topology) (v : VolumeInfo) (dn : NodeId) :
    (v.collection ∈ (t.UnRegisterVolumeLayout v dn).ListCollections true false
      ↔ ((t.GetVolumeLayout v.collection v.replicaPlacement v.ttl).UnRegisterVolume
          v dn).isEmpty = false) := by
  unfold Topology.UnRegisterVolumeLayout
  set vl := (t.GetVolumeLayout v.collection v.replicaPlacement v.ttl).UnRegisterVolume v dn
    with hvl
  by_cases h : vl.isEmpty
  · simp only [h, if_true, Topology.ListCollections, Bool.false_eq_true, List.mem_dedup]
    simp only [if_false, List.append_nil]
    simp only [Topology.DeleteCollection]
    constructor
    · intro hmem
      exact absurd hmem (not_mem_names_after_delete _ _)
    · intro hfalse
      simp at hfalse
  · simp only [h, if_false, Topology.ListCollections, Bool.false_eq_true, List.mem_dedup]
    simp only [if_false, List.append_nil]
    constructor
    · intro _
      trivial
    · intro _
      unfold Topology.putVolumeLayout
      have hm := setCollection_mem_names t
        ((t.getCollection v.collection).setVolumeLayout v.replicaPlacement v.ttl vl)
      rwa [setVolumeLayout_name, getCollection_name] at hm

/-- The collection of the C5 counterexample: `"c"` tracks only volume 1. -/
def c5Collection : Collection := ⟨"c", [((0, 0), ⟨[(1, ["X"])]⟩)]⟩

/-- The C5 counterexample topology: collection `"c"` without volume 5, and
an ec shard entry for volume 5 with locations `N1` and `N2`. -/
def c5Topology : Topology := ⟨[c5Collection], [(5, ⟨"e", [["N1"], ["N2"]]⟩)]⟩

/-- C5 counterexample: looking volume 5 up in the existing collection `"c"`
finds nothing in step 1, and the ec shard map does know the volume
(flattened locations `[N1, N2]`), yet `Lookup` returns empty — the code
never falls through to the ec map once the named collection exists.  This
refutes the claim that the ec shard map is consulted whenever step 1 finds
nothing. -/
theorem lookup_counterexample :
    (c5Topology.findCollection "c").isSome = true ∧
    c5Collection.Lookup 5 = none ∧
    c5Topology.ecShardsFlattened 5 = ["N1", "N2"] ∧
    c5Topology.Lookup "c" 5 = [] ∧
    c5Topology.Lookup "c" 5 ≠ c5Topology.ecShardsFlattened 5 := by
  decide

/-- C5 amended: with a collection name given, `Lookup` returns the named
collection's replica list — possibly empty, without ever consulting the ec
shard map — whenever that collection exists; the ec shard map, flattened,
is consulted only when the named collection does not exist, or when no
name is given and no collection yields a list; a volume known nowhere gives
the empty result, not an error. -/
theorem lookup_resolution_amended (t : Topology) (name : String) (vid : VolumeId) :
    (∀ c, name ≠ "" → t.findCollection name = some c →
      t.Lookup name vid = (c.Lookup vid).getD []) ∧
    (name ≠ "" → t.findCollection name = none →
      t.Lookup name vid = t.ecShardsFlattened vid) ∧
    (∀ l, t.collections.findSome? (fun c => c.Lookup vid) = some l →
      t.Lookup "" vid = l) ∧
    (t.collections.findSome? (fun c => c.Lookup vid) = none →
      t.Lookup "" vid = t.ecShardsFlattened vid) ∧
    (t.LookupEcShards vid = none → t.ecShardsFlattened vid = []) := by
  refine ⟨?_, ?_, ?_, ?_, ?_⟩
  · intro c hne hfind
    simp [Topology.Lookup, hne, hfind]
  · intro hne hfind
    simp [Topology.Lookup, hne, hfind]
  · intro l hfs
    simp [Topology.Lookup, hfs]
  · intro hfs
    simp [Topology.Lookup, hfs]
  · intro hec
    simp [Topology.ecShardsFlattened, hec]

/-- C5 amended witness: with a name that matches no collection, `Lookup`
falls through to the flattened ec shard locations. -/
theorem lookup_resolution_amended_witness :
    c5Topology.Lookup "zz" 5 = c5Topology.ecShardsFlattened 5 :=
  (lookup_resolution_amended c5Topology "zz" 5).2.1 (by decide) (by decide)

end Seaweed
